import Mathlib

/-!
Verification of the scoring / normalization engine of the CMS bid price
comparison tool (`simple_server.py`).

The Python code works on floats and dynamically typed dictionary fields.
The embedding models floats as exact rationals (`ℚ`), optional / absent
numeric fields as `Option ℚ`, and — where a claim depends on the
dynamically typed failure behaviour — dictionary values as an explicit
dynamic value type `PyVal` whose arithmetic is partial (`Except`),
mirroring Python TypeError behaviour.
-/

/-- Python truthiness of an optional float: `None` and `0` are falsy. -/
def floatTruthy : Option ℚ → Bool
  | Option.none => false
  | some q => decide (q ≠ 0)

/-- Python evaluation of `x and x > 0` for an optional float `x`
(short-circuited, so `None` never reaches the comparison). -/
def posVal : Option ℚ → Bool
  | Option.none => false
  | some q => decide (0 < q)

/-- Banker's rounding of a rational to an integer, as Python `round`
performs on exact decimal ties (floats are idealized as exact rationals). -/
def roundHalfEven (q : ℚ) : ℤ :=
  if q - (⌊q⌋ : ℚ) = 1 / 2 then (if ⌊q⌋ % 2 = 0 then ⌊q⌋ else ⌊q⌋ + 1)
  else round q

/-- Python `round(x, 2)`. -/
def pyRound2 (q : ℚ) : ℚ := (roundHalfEven (q * 100) : ℚ) / 100

/-- Python `round(x, 1)`. -/
def pyRound1 (q : ℚ) : ℚ := (roundHalfEven (q * 10) : ℚ) / 10

/-- `calculate_estimated_bid` (simple_server.py lines 19-33).
`if not benchmark: return None` catches only `None` and `0` (Python
truthiness); a negative benchmark flows through to the clamp.  The first
branch condition `(not premium or premium == 0) and supplements and
supplements > 0` is modeled with `premium == 0` subsumed by falsiness of
`premium`, and the short-circuit of `supplements and supplements > 0`
modeled by `posVal`. -/
def calculate_estimated_bid (benchmark premium supplements : Option ℚ) :
    Option ℚ :=
  match benchmark with
  | Option.none => Option.none
  | some b =>
    if b = 0 then Option.none
    else
      let admin_margin := b * 0.035
      let estimated_bid :=
        if !floatTruthy premium && (floatTruthy supplements && posVal supplements) then
          b - supplements.getD 0 * 0.05 - admin_margin
        else if floatTruthy premium && posVal premium then
          b - premium.getD 0 - admin_margin
        else
          b * 0.92
      some (max (min estimated_bid b) (b * 0.80))

/-- `calculate_member_value_pmpm` (simple_server.py lines 35-55), numeric
path.  The source reads the four fields from the plan dict with default 0
and computes the value below; note `annual_rebate = rebate` — the rebate
is NOT multiplied by 12.  The `except` branch (non-numeric fields) returns
0 and is not involved in the claims about the formula. -/
def calculate_member_value_pmpm
    (rebate total_supplemental_value part_c_premium part_d_premium : ℚ) : ℚ :=
  let annual_rebate := rebate
  let annual_supplemental := total_supplemental_value
  let annual_premium_cost := (part_c_premium + part_d_premium) * 12
  let annual_member_value := annual_rebate + annual_supplemental - annual_premium_cost
  annual_member_value / 12

/-- The formula claimed by the specification for the member value
computation (spec section 4.2), with the rebate annualized by `* 12`.
Stated separately so it can be compared with the source function. -/
def spec_member_value_pmpm
    (rebate total_supplemental_value part_c_premium part_d_premium : ℚ) : ℚ :=
  (rebate * 12 + total_supplemental_value
    - (part_c_premium + part_d_premium) * 12) / 12

/-- C1 (counterexample): at `rebate = 12`, all other inputs 0, the code
returns `12 / 12 = 1`, while the claimed formula gives
`12 * 12 / 12 = 12`; the code does not annualize the rebate. -/
theorem member_value_claim_false :
    calculate_member_value_pmpm 12 0 0 0 = 1 ∧
      spec_member_value_pmpm 12 0 0 0 = 12 ∧
      calculate_member_value_pmpm 12 0 0 0 ≠ spec_member_value_pmpm 12 0 0 0 := by
  refine ⟨by norm_num [calculate_member_value_pmpm],
          by norm_num [spec_member_value_pmpm], ?_⟩
  norm_num [calculate_member_value_pmpm, spec_member_value_pmpm]

/-- C1 (amended): `calculate_member_value_pmpm` returns
`(rebate + supplemental_value - (premium_c + premium_d) * 12) / 12` —
the rebate enters the annual total as-is, without the `* 12`
annualization the specification describes. -/
theorem member_value_formula
    (rebate total_supplemental_value part_c_premium part_d_premium : ℚ) :
    calculate_member_value_pmpm rebate total_supplemental_value
        part_c_premium part_d_premium =
      (rebate + total_supplemental_value
        - (part_c_premium + part_d_premium) * 12) / 12 := rfl

/-- C2 (counterexample): for the strictly negative benchmark `-100` (with
premium 0, supplements 0), the code does not return `None`: Python
`not benchmark` is false for a negative number, so the computation
proceeds (`-100 * 0.92 = -92`, clamped to `max(min(-92, -100), -80) = -80`). -/
theorem estimated_bid_negative_benchmark_not_none :
    calculate_estimated_bid (some (-100)) (some 0) (some 0) = some (-80) ∧
      calculate_estimated_bid (some (-100)) (some 0) (some 0) ≠ Option.none := by
  constructor
  · show some (max (min ((-100 : ℚ) * 0.92) (-100)) ((-100) * 0.80)) = some (-80)
    norm_num
  · show some (max (min ((-100 : ℚ) * 0.92) (-100)) ((-100) * 0.80)) ≠ Option.none
    simp

/-- C2 (amended): `calculate_estimated_bid` returns `None` exactly when the
benchmark is absent (`None`) or zero — Python truthiness — and returns a
non-null value for every other benchmark, including strictly negative ones. -/
theorem estimated_bid_none_iff (benchmark premium supplements : Option ℚ) :
    calculate_estimated_bid benchmark premium supplements = Option.none ↔
      (benchmark = Option.none ∨ benchmark = some 0) := by
  match benchmark with
  | Option.none => simp [calculate_estimated_bid]
  | some b =>
    by_cases hb : b = 0
    · subst hb; simp [calculate_estimated_bid]
    · simp [calculate_estimated_bid, hb]

/-- C3: for a positive benchmark (and any non-negative premium and
supplements), the non-null result of `calculate_estimated_bid` lies in
`[0.80 * benchmark, benchmark]`, by the final clamp
`max(min(estimated_bid, benchmark), benchmark * 0.80)`. -/
theorem estimated_bid_clamped (b p s : ℚ) (hb : 0 < b) (hp : 0 ≤ p)
    (hs : 0 ≤ s) (r : ℚ)
    (h : calculate_estimated_bid (some b) (some p) (some s) = some r) :
    0.80 * b ≤ r ∧ r ≤ b := by
  have hbne : b ≠ 0 := ne_of_gt hb
  simp only [calculate_estimated_bid, if_neg hbne, Option.some.injEq] at h
  subst h
  constructor
  · rw [mul_comm]
    exact le_max_right _ _
  · apply max_le
    · exact le_trans (min_le_right _ _) le_rfl
    · nlinarith

/-- C3 witness: benchmark 500, premium 0, supplements 200 yields the bid
472.5, which lies in `[400, 500]`. -/
theorem estimated_bid_clamped_witness :
    (0 < (500 : ℚ) ∧ (0 : ℚ) ≤ 0 ∧ (0 : ℚ) ≤ 200 ∧
      calculate_estimated_bid (some 500) (some 0) (some 200) = some 472.5) ∧
      0.80 * (500 : ℚ) ≤ 472.5 ∧ (472.5 : ℚ) ≤ 500 := by
  have hcalc : calculate_estimated_bid (some 500) (some 0) (some 200) =
      some 472.5 := by
    norm_num [calculate_estimated_bid, floatTruthy, posVal, min_def, max_def]
  exact ⟨⟨by norm_num, by norm_num, by norm_num, hcalc⟩,
    estimated_bid_clamped 500 0 200 (by norm_num) (by norm_num) (by norm_num)
      472.5 hcalc⟩

/-- A dynamically typed Python dictionary value, as far as this code can
observe one: a float (idealized as `ℚ`), a string, or `None`.  Absent keys
behave like `None` here, because every field access in the source is a
`plan.get(key, 0) or 0`. -/
inductive PyVal where
  | num : ℚ → PyVal
  | str : String → PyVal
  | none : PyVal
deriving DecidableEq

/-- Python truthiness of a `PyVal`. -/
def PyVal.truthy : PyVal → Bool
  | .num q => decide (q ≠ 0)
  | .str s => decide (s ≠ "")
  | .none => false

/-- Python `a or b`: `a` if truthy, else `b`. -/
def pyOr (a b : PyVal) : PyVal := if a.truthy then a else b

/-- Python `a + b` on dictionary values: numbers add, strings concatenate,
anything else raises `TypeError`. -/
def pyAdd : PyVal → PyVal → Except String PyVal
  | .num a, .num b => .ok (.num (a + b))
  | .str a, .str b => .ok (.str (a ++ b))
  | _, _ => .error "TypeError: unsupported operand types for +"

/-- Python `a - b`: only numbers subtract. -/
def pySub : PyVal → PyVal → Except String PyVal
  | .num a, .num b => .ok (.num (a - b))
  | _, _ => .error "TypeError: unsupported operand types for -"

/-- Python `a / b`: numbers only, and zero divisors raise. -/
def pyDiv : PyVal → PyVal → Except String PyVal
  | .num a, .num b =>
      if b = 0 then .error "ZeroDivisionError: division by zero"
      else .ok (.num (a / b))
  | _, _ => .error "TypeError: unsupported operand types for /"

/-- Python `max(a, b)` (keeps the first argument on ties).  Only the
numeric case is reachable in this code (`max(0, ...)`). -/
def pyMax : PyVal → PyVal → Except String PyVal
  | .num a, .num b => .ok (.num (if b > a then b else a))
  | _, _ => .error "TypeError: unorderable types in max"

/-- Extraction of a number from a `PyVal` at the points where the source
compares with, rounds, or multiplies by a numeric literal: a non-number
there raises `TypeError` in Python.  (String-to-string comparisons never
occur in this code; every comparison has a numeric literal operand.) -/
def pyToNum : PyVal → Except String ℚ
  | .num q => .ok q
  | .str _ => .error "TypeError: str where a number is required"
  | .none => .error "TypeError: NoneType where a number is required"

/-- The plan record fields read by `calculate_mac_value`. -/
structure MacPlan where
  part_c_premium : PyVal
  part_d_premium : PyVal
  part_b_buydown : PyVal
  estimated_benchmark : PyVal
  benchmark_0pct : PyVal
  estimated_bid : PyVal
  overall_rating : PyVal
  total_supplemental_value : PyVal
deriving DecidableEq

/-- The `components` sub-dictionary of a MAC value result. -/
structure MacComponents where
  part_c_benefit_value : ℚ
  part_d_benefit_value : ℚ
  part_b_buydown : ℚ
  total_member_premium : ℚ
  rebate_amount : ℚ
  supplemental_benefits_pmpm : ℚ
deriving DecidableEq

/-- The `calculation_details` sub-dictionary of a MAC value result. -/
structure MacDetails where
  rebate_percentage : ℚ
  star_rating : ℚ
  gross_savings : ℚ
  benchmark : ℚ
  estimated_bid : ℚ
deriving DecidableEq

/-- A MAC value result dictionary.  The error dictionary built by the
`except` branch has no `calculation_details` key, hence the `Option`. -/
structure MacResult where
  mac_value : ℚ
  value_added_pmpm : ℚ
  error : Option String
  components : MacComponents
  calculation_details : Option MacDetails
deriving DecidableEq

/-- CMS rebate percentage by star rating (simple_server.py lines 77-82):
`>= 4.5 → 0.70`, `elif >= 3.5 → 0.65`, `else 0.50`. -/
def rebatePercentage (star_rating : ℚ) : ℚ :=
  if star_rating ≥ 4.5 then 0.70
  else if star_rating ≥ 3.5 then 0.65
  else 0.50

/-- `rebate_amount = gross_savings * rebate_percentage`
(simple_server.py line 86). -/
def rebateAmount (gross_savings star_rating : ℚ) : ℚ :=
  gross_savings * rebatePercentage star_rating

/-- The provisional 10-bucket score ladder over `total_value_added`
(simple_server.py lines 108-127). -/
def provisionalScore (total_value_added : ℚ) : ℚ :=
  if total_value_added ≥ 200 then 100
  else if total_value_added ≥ 150 then 90
  else if total_value_added ≥ 100 then 80
  else if total_value_added ≥ 75 then 70
  else if total_value_added ≥ 50 then 60
  else if total_value_added ≥ 25 then 50
  else if total_value_added ≥ 0 then 40
  else if total_value_added ≥ -25 then 30
  else if total_value_added ≥ -50 then 20
  else 10

/-- The `try` body of `calculate_mac_value` (simple_server.py lines 62-149),
with Python TypeError / ZeroDivisionError surfaced in `Except`.  `pyToNum`
marks the spots where a non-numeric value raises: the star-rating
comparisons against 4.5 / 3.5, the ladder comparisons, and each
`round(x, 2)` in the result dictionary, in source evaluation order. -/
def computeMacValue (plan : MacPlan) : Except String MacResult := do
  let part_c_premium := pyOr plan.part_c_premium (.num 0)
  let part_d_premium := pyOr plan.part_d_premium (.num 0)
  let total_member_premium ← pyAdd part_c_premium part_d_premium
  let part_b_buydown := pyOr plan.part_b_buydown (.num 0)
  let benchmark := pyOr (pyOr plan.estimated_benchmark plan.benchmark_0pct) (.num 0)
  let estimated_bid := pyOr plan.estimated_bid (.num 0)
  let star_rating := pyOr plan.overall_rating (.num 0)
  let starQ ← pyToNum star_rating
  let rebate_percentage := rebatePercentage starQ
  let gross_savings ←
    if benchmark.truthy && estimated_bid.truthy then do
      let diff ← pySub benchmark estimated_bid
      pyMax (.num 0) diff
    else pure (.num 0)
  let grossQ ← pyToNum gross_savings
  let rebate_amount := rebateAmount grossQ starQ
  let supplemental_benefits_annual := pyOr plan.total_supplemental_value (.num 0)
  let supplemental_benefits_pmpm ← pyDiv supplemental_benefits_annual (.num 12)
  let suppQ ← pyToNum supplemental_benefits_pmpm
  let part_c_benefit_value := rebate_amount + suppQ
  let part_d_benefit_value := rebate_amount * 0.25
  let s1 ← pyAdd (.num part_c_benefit_value) (.num part_d_benefit_value)
  let s2 ← pyAdd s1 part_b_buydown
  let total_value_added ← pySub s2 total_member_premium
  let totalQ ← pyToNum total_value_added
  let normalized_score := provisionalScore totalQ
  let buydownQ ← pyToNum part_b_buydown
  let premQ ← pyToNum total_member_premium
  let benchmarkQ ← pyToNum benchmark
  let bidQ ← pyToNum estimated_bid
  pure
    { mac_value := pyRound1 normalized_score
      value_added_pmpm := pyRound2 totalQ
      error := Option.none
      components :=
        { part_c_benefit_value := pyRound2 part_c_benefit_value
          part_d_benefit_value := pyRound2 part_d_benefit_value
          part_b_buydown := pyRound2 buydownQ
          total_member_premium := pyRound2 premQ
          rebate_amount := pyRound2 rebate_amount
          supplemental_benefits_pmpm := pyRound2 suppQ }
      calculation_details := some
        { rebate_percentage := pyRound1 (rebate_percentage * 100)
          star_rating := starQ
          gross_savings := pyRound2 grossQ
          benchmark := pyRound2 benchmarkQ
          estimated_bid := pyRound2 bidQ } }

/-- The zero-filled result dictionary built by the `except` branch
(simple_server.py lines 151-166). -/
def zeroFilledResult (e : String) : MacResult :=
  { mac_value := 0
    value_added_pmpm := 0
    error := some e
    components :=
      { part_c_benefit_value := 0
        part_d_benefit_value := 0
        part_b_buydown := 0
        total_member_premium := 0
        rebate_amount := 0
        supplemental_benefits_pmpm := 0 }
    calculation_details := Option.none }

/-- `calculate_mac_value` (simple_server.py lines 57-166): the `try` body,
with every raised exception caught and turned into the zero-filled
error dictionary. -/
def calculate_mac_value (plan : MacPlan) : MacResult :=
  match computeMacValue plan with
  | .ok r => r
  | .error e => zeroFilledResult e

/-- The end-to-end test plan of C4: benchmark 500 (as `estimated_benchmark`),
premiums 0, annual supplemental value 200, star rating 4.6, and the bid
472.5 produced by `calculate_estimated_bid` for these inputs. -/
def planC4 : MacPlan :=
  { part_c_premium := .num 0
    part_d_premium := .num 0
    part_b_buydown := PyVal.none
    estimated_benchmark := .num 500
    benchmark_0pct := PyVal.none
    estimated_bid := .num 472.5
    overall_rating := .num 4.6
    total_supplemental_value := .num 200 }

/-- Sequencing an `ok` value in the `Except` monad applies the continuation. -/
@[simp] theorem exceptOkBind {α β : Type} (a : α) (f : α → Except String β) :
    (Except.ok a : Except String α) >>= f = f a := rfl

/-- Sequencing an `error` value in the `Except` monad propagates the error. -/
@[simp] theorem exceptErrorBind {α β : Type} (e : String)
    (f : α → Except String β) :
    (Except.error e : Except String α) >>= f = Except.error e := rfl

/-- `pure` in the `Except` monad is `ok`. -/
@[simp] theorem exceptPureEqOk {α : Type} (a : α) :
    (pure a : Except String α) = Except.ok a := rfl

/-- Evaluation of `roundHalfEven` when the value sits strictly below the
midpoint of its unit interval. -/
theorem roundHalfEven_eq_low (q : ℚ) (n : ℤ) (h1 : (n : ℚ) ≤ q)
    (h2 : q < (n : ℚ) + 1 / 2) : roundHalfEven q = n := by
  have hf : ⌊q⌋ = n := Int.floor_eq_iff.mpr ⟨h1, by push_cast; linarith⟩
  have hne : ¬(q - (⌊q⌋ : ℚ) = 1 / 2) := by
    rw [hf]; intro hc; linarith
  rw [roundHalfEven, if_neg hne, round_eq]
  exact Int.floor_eq_iff.mpr ⟨by push_cast; linarith, by push_cast; linarith⟩

/-- Evaluation of `roundHalfEven` when the value sits strictly above the
midpoint of its unit interval. -/
theorem roundHalfEven_eq_high (q : ℚ) (n : ℤ) (h1 : (n : ℚ) + 1 / 2 < q)
    (h2 : q ≤ (n : ℚ) + 1) : roundHalfEven q = n + 1 := by
  by_cases hq : q = (n : ℚ) + 1
  · have hf : ⌊q⌋ = n + 1 := by
      apply Int.floor_eq_iff.mpr
      constructor
      · push_cast; linarith [hq.ge]
      · push_cast; rw [hq]; linarith
    have hne : ¬(q - (⌊q⌋ : ℚ) = 1 / 2) := by
      rw [hf]; push_cast; rw [hq]; intro hc; linarith
    rw [roundHalfEven, if_neg hne, round_eq]
    apply Int.floor_eq_iff.mpr
    refine ⟨by push_cast; linarith [hq.ge], by push_cast; rw [hq]; linarith⟩
  · have hlt : q < (n : ℚ) + 1 := lt_of_le_of_ne h2 hq
    have hf : ⌊q⌋ = n := Int.floor_eq_iff.mpr ⟨by linarith, by push_cast; linarith⟩
    have hne : ¬(q - (⌊q⌋ : ℚ) = 1 / 2) := by
      rw [hf]; intro hc; linarith
    rw [roundHalfEven, if_neg hne, round_eq]
    exact Int.floor_eq_iff.mpr ⟨by push_cast; linarith, by push_cast; linarith⟩

/-- Evaluation of `pyRound2` below the midpoint. -/
theorem pyRound2_eq_low (q : ℚ) (n : ℤ) (h1 : (n : ℚ) ≤ q * 100)
    (h2 : q * 100 < (n : ℚ) + 1 / 2) : pyRound2 q = (n : ℚ) / 100 := by
  rw [pyRound2, roundHalfEven_eq_low (q * 100) n h1 h2]

/-- Evaluation of `pyRound2` above the midpoint. -/
theorem pyRound2_eq_high (q : ℚ) (n : ℤ) (h1 : (n : ℚ) + 1 / 2 < q * 100)
    (h2 : q * 100 ≤ (n : ℚ) + 1) : pyRound2 q = ((n : ℚ) + 1) / 100 := by
  rw [pyRound2, roundHalfEven_eq_high (q * 100) n h1 h2]; push_cast; ring

/-- Evaluation of `pyRound1` below the midpoint. -/
theorem pyRound1_eq_low (q : ℚ) (n : ℤ) (h1 : (n : ℚ) ≤ q * 10)
    (h2 : q * 10 < (n : ℚ) + 1 / 2) : pyRound1 q = (n : ℚ) / 10 := by
  rw [pyRound1, roundHalfEven_eq_low (q * 10) n h1 h2]

/-- The value of the full `try` body on the C4 plan, with the roundings
still symbolic. -/
theorem computeMacValue_planC4 :
    computeMacValue planC4 = Except.ok
      { mac_value := pyRound1 50
        value_added_pmpm := pyRound2 (1955 / 48)
        error := Option.none
        components :=
          { part_c_benefit_value := pyRound2 (431 / 12)
            part_d_benefit_value := pyRound2 (77 / 16)
            part_b_buydown := pyRound2 0
            total_member_premium := pyRound2 0
            rebate_amount := pyRound2 (77 / 4)
            supplemental_benefits_pmpm := pyRound2 (50 / 3) }
        calculation_details := some
          { rebate_percentage := pyRound1 70
            star_rating := 4.6
            gross_savings := pyRound2 (55 / 2)
            benchmark := pyRound2 500
            estimated_bid := pyRound2 (945 / 2) } } := by
  norm_num [computeMacValue, planC4, pyOr, PyVal.truthy, pyAdd, pySub, pyDiv,
    pyMax, pyToNum, rebatePercentage, rebateAmount, provisionalScore,
    Bool.and_eq_true, decide_eq_true_eq]

/-- C4 (counterexample): on the C4 plan the stored `part_c_benefit_value`
is `round(19.25 + 200 / 12, 2) = 35.92`, not the 36.0 the claim states:
`19.25 + 200 / 12 = 35.91666...`. -/
theorem mac_value_c4_part_c_not_36 :
    (calculate_mac_value planC4).components.part_c_benefit_value = 35.92 ∧
      (calculate_mac_value planC4).components.part_c_benefit_value ≠ 36.0 := by
  have h : (calculate_mac_value planC4).components.part_c_benefit_value =
      pyRound2 (431 / 12) := by
    rw [calculate_mac_value, computeMacValue_planC4]
  rw [h, pyRound2_eq_high (431 / 12) 3591 (by norm_num) (by norm_num)]
  norm_num

/-- C4 (amended): for the plan with benchmark 500, premium 0, annual
supplemental value 200 and star rating 4.6, `calculate_estimated_bid`
returns `500 - 200 * 0.05 - 500 * 0.035 = 472.5`, `gross_savings` is 27.5,
`rebate_amount` is `27.5 * 0.70 = 19.25`, and `part_c_benefit_value` is
`19.25 + 200 / 12 = 35.92` to 2 decimal places (not 36.0). -/
theorem mac_value_c4_end_to_end :
    calculate_estimated_bid (some 500) (some 0) (some 200) =
        some (500 - 200 * 0.05 - 500 * 0.035) ∧
      (calculate_mac_value planC4).calculation_details =
        some { rebate_percentage := 70
               star_rating := 4.6
               gross_savings := 27.5
               benchmark := 500
               estimated_bid := 472.5 } ∧
      (calculate_mac_value planC4).components.rebate_amount = 19.25 ∧
      (calculate_mac_value planC4).components.part_c_benefit_value = 35.92 := by
  have hmac : calculate_mac_value planC4 =
      { mac_value := pyRound1 50
        value_added_pmpm := pyRound2 (1955 / 48)
        error := Option.none
        components :=
          { part_c_benefit_value := pyRound2 (431 / 12)
            part_d_benefit_value := pyRound2 (77 / 16)
            part_b_buydown := pyRound2 0
            total_member_premium := pyRound2 0
            rebate_amount := pyRound2 (77 / 4)
            supplemental_benefits_pmpm := pyRound2 (50 / 3) }
        calculation_details := some
          { rebate_percentage := pyRound1 70
            star_rating := 4.6
            gross_savings := pyRound2 (55 / 2)
            benchmark := pyRound2 500
            estimated_bid := pyRound2 (945 / 2) } } := by
    rw [calculate_mac_value, computeMacValue_planC4]
  refine ⟨?_, ?_, ?_, ?_⟩
  · norm_num [calculate_estimated_bid, floatTruthy, posVal, min_def, max_def]
  · rw [hmac]
    rw [pyRound1_eq_low 70 700 (by norm_num) (by norm_num),
      pyRound2_eq_low (55 / 2) 2750 (by norm_num) (by norm_num),
      pyRound2_eq_low 500 50000 (by norm_num) (by norm_num),
      pyRound2_eq_low (945 / 2) 47250 (by norm_num) (by norm_num)]
    norm_num
  · rw [hmac]
    rw [pyRound2_eq_low (77 / 4) 1925 (by norm_num) (by norm_num)]
    norm_num
  · rw [hmac]
    rw [pyRound2_eq_high (431 / 12) 3591 (by norm_num) (by norm_num)]
    norm_num
/-- C5: every exception raised inside the computation of
`calculate_mac_value` is caught, and the function returns the zero-filled
result (mac_value 0, value_added_pmpm 0, every component 0, no
calculation_details) carrying the description of the exception in the
`error` field; being a total function, it never propagates a failure. -/
theorem mac_value_catches_exceptions (plan : MacPlan) (e : String)
    (h : computeMacValue plan = .error e) :
    calculate_mac_value plan =
      { mac_value := 0
        value_added_pmpm := 0
        error := some e
        components :=
          { part_c_benefit_value := 0
            part_d_benefit_value := 0
            part_b_buydown := 0
            total_member_premium := 0
            rebate_amount := 0
            supplemental_benefits_pmpm := 0 }
        calculation_details := Option.none } := by
  unfold calculate_mac_value
  rw [h]
  rfl

/-- A malformed plan record: its star rating is the string "Not rated",
which raises a TypeError at the comparison `star_rating >= 4.5`. -/
def planBadStar : MacPlan :=
  { part_c_premium := .num 10
    part_d_premium := .num 5
    part_b_buydown := PyVal.none
    estimated_benchmark := .num 500
    benchmark_0pct := PyVal.none
    estimated_bid := .num 450
    overall_rating := .str "Not rated"
    total_supplemental_value := .num 120 }

/-- C5 witness: on the malformed record the computation raises, and
`calculate_mac_value` returns the zero-filled error result. -/
theorem mac_value_catches_exceptions_witness :
    computeMacValue planBadStar =
        .error "TypeError: str where a number is required" ∧
      calculate_mac_value planBadStar =
        { mac_value := 0
          value_added_pmpm := 0
          error := some "TypeError: str where a number is required"
          components :=
            { part_c_benefit_value := 0
              part_d_benefit_value := 0
              part_b_buydown := 0
              total_member_premium := 0
              rebate_amount := 0
              supplemental_benefits_pmpm := 0 }
          calculation_details := Option.none } :=
  ⟨rfl, mac_value_catches_exceptions planBadStar
    "TypeError: str where a number is required" rfl⟩

/-- C8: with gross savings held fixed and positive, raising the star
rating across a tier boundary (below 3.5 to at least 3.5, or below 4.5 to
at least 4.5) strictly increases `rebate_amount`, because
`rebate_percentage` steps 0.50 → 0.65 → 0.70 with tiers inclusive on the
lower bound and evaluated highest-first. -/
theorem rebate_amount_strict_mono_at_tier (g s1 s2 : ℚ) (hg : 0 < g)
    (hcross : (s1 < 3.5 ∧ 3.5 ≤ s2) ∨ (s1 < 4.5 ∧ 4.5 ≤ s2)) :
    rebateAmount g s1 < rebateAmount g s2 := by
  unfold rebateAmount rebatePercentage
  rcases hcross with ⟨h1, h2⟩ | ⟨h1, h2⟩ <;> split_ifs <;> nlinarith

/-- C8 witness: at gross savings 10, moving the star rating from 3.4 to
3.5 raises the rebate amount from 5 to 6.5. -/
theorem rebate_amount_strict_mono_at_tier_witness :
    (0 < (10 : ℚ) ∧ ((3.4 : ℚ) < 3.5 ∧ (3.5 : ℚ) ≤ 3.5)) ∧
      rebateAmount 10 3.4 < rebateAmount 10 3.5 :=
  ⟨⟨by norm_num, by norm_num, by norm_num⟩,
    rebate_amount_strict_mono_at_tier 10 3.4 3.5 (by norm_num)
      (Or.inl ⟨by norm_num, by norm_num⟩)⟩

/-- Python `max(list)` over a non-empty list of floats. -/
def pyListMax (l : List ℚ) : ℚ := l.foldl max (l.headD 0)

/-- Python `min(list)` over a non-empty list of floats. -/
def pyListMin (l : List ℚ) : ℚ := l.foldl min (l.headD 0)

/-- `calculate_market_relative_score` (simple_server.py lines 532-565): the
normalizer closure of `get_mac_value_analysis` (the one in `get_plans`,
lines 323-352, is textually identical).  `value_added_amounts` is the list
of non-null raw value-added figures of the batch; the outer condition is
Python `if value_added_amounts and len(value_added_amounts) > 1`. -/
def calculate_market_relative_score
    (value_added_amounts : List ℚ) (value_added : ℚ) : ℚ :=
  if value_added_amounts ≠ [] ∧ 1 < value_added_amounts.length then
    let max_value := pyListMax value_added_amounts
    let min_value := pyListMin value_added_amounts
    let value_range := max_value - min_value
    if 0 < value_range then
      let relative_position := (value_added - min_value) / value_range
      if relative_position ≥ 0.9 then 100
      else if relative_position ≥ 0.75 then 90
      else if relative_position ≥ 0.6 then 80
      else if relative_position ≥ 0.4 then 70
      else if relative_position ≥ 0.25 then 60
      else if relative_position ≥ 0.1 then 50
      else 40
    else 60
  else 60

/-- The mac_value outputs of the two-pass batch pipeline of
`get_mac_value_analysis` (simple_server.py lines 521-575): score every plan,
collect the raw `value_added_pmpm` figures (the `is not None` filter keeps
all of them, since `value_added_pmpm` is always a number — 0 in the error
branch), then overwrite every plan's `mac_value` with
`round(calculate_market_relative_score(raw), 1)`. -/
def macValueAnalysisScores (plans : List MacPlan) : List ℚ :=
  let raw_values := plans.map (fun p => (calculate_mac_value p).value_added_pmpm)
  let value_added_amounts := raw_values
  raw_values.map
    (fun v => pyRound1 (calculate_market_relative_score value_added_amounts v))

/-- C6: a degenerate market — fewer than 2 valid raw figures, or all valid
figures equal (`max - min = 0`) — assigns every plan the fixed neutral
score 60; in these branches the normalizer performs no division at all,
so no division by zero can occur. -/
theorem market_relative_score_degenerate (value_added_amounts : List ℚ)
    (hdeg : value_added_amounts.length < 2 ∨
      pyListMax value_added_amounts - pyListMin value_added_amounts = 0)
    (value_added : ℚ) :
    calculate_market_relative_score value_added_amounts value_added = 60 := by
  simp only [calculate_market_relative_score]
  rcases hdeg with hlen | hrange
  · rw [if_neg]
    intro h
    obtain ⟨hne, hgt⟩ := h
    omega
  · rw [hrange, if_neg (lt_irrefl 0), ite_self]

/-- C6 witness: a market of two tied plans (raw figures 5 and 5) gives a
third figure 7 the score 60. -/
theorem market_relative_score_degenerate_witness :
    ([(5 : ℚ), 5].length < 2 ∨
        pyListMax [(5 : ℚ), 5] - pyListMin [(5 : ℚ), 5] = 0) ∧
      calculate_market_relative_score [(5 : ℚ), 5] 7 = 60 :=
  ⟨Or.inr (by norm_num [pyListMax, pyListMin]),
    market_relative_score_degenerate [(5 : ℚ), 5]
      (Or.inr (by norm_num [pyListMax, pyListMin])) 7⟩

/-- C7: in a market of exactly two plans with raw figures 100 and -50, the
plan at 100 (relative position 1) scores 100 and the plan at -50
(relative position 0, the `else` bucket) scores 40. -/
theorem market_relative_score_two_plans :
    pyRound1 (calculate_market_relative_score [100, -50] 100) = 100 ∧
      pyRound1 (calculate_market_relative_score [100, -50] (-50)) = 40 := by
  have hmax : pyListMax [(100 : ℚ), -50] = 100 := by
    norm_num [pyListMax]
  have hmin : pyListMin [(100 : ℚ), -50] = -50 := by
    norm_num [pyListMin]
  have hc : ([100, -50] : List ℚ) ≠ [] ∧ 1 < ([100, -50] : List ℚ).length :=
    ⟨by simp, by simp⟩
  constructor
  · have h : calculate_market_relative_score [100, -50] 100 = 100 := by
      simp only [calculate_market_relative_score, if_pos hc, hmax, hmin]
      norm_num
    rw [h, pyRound1_eq_low 100 1000 (by norm_num) (by norm_num)]
    norm_num
  · have h : calculate_market_relative_score [100, -50] (-50) = 40 := by
      simp only [calculate_market_relative_score, if_pos hc, hmax, hmin]
      norm_num
    rw [h, pyRound1_eq_low 40 400 (by norm_num) (by norm_num)]
    norm_num

/-- `pyRound1` fixes every integer value. -/
theorem pyRound1_intCast (n : ℤ) : pyRound1 (n : ℚ) = (n : ℚ) := by
  rw [pyRound1_eq_low (n : ℚ) (n * 10) (by push_cast; linarith)
    (by push_cast; linarith)]
  push_cast; ring

/-- `pyRound1` fixes a rational known to be an integer. -/
theorem pyRound1_eq_self_of_int (q : ℚ) (n : ℤ) (hq : q = (n : ℚ)) :
    pyRound1 q = q := by
  rw [hq, pyRound1_intCast]

/-- The market-relative score is always one of the seven ladder values. -/
theorem market_relative_score_cases (l : List ℚ) (v : ℚ) :
    calculate_market_relative_score l v = 40 ∨
      calculate_market_relative_score l v = 50 ∨
      calculate_market_relative_score l v = 60 ∨
      calculate_market_relative_score l v = 70 ∨
      calculate_market_relative_score l v = 80 ∨
      calculate_market_relative_score l v = 90 ∨
      calculate_market_relative_score l v = 100 := by
  simp only [calculate_market_relative_score]
  split_ifs <;> norm_num

/-- C9: after market normalization, every plan's final mac_value is one of
exactly 40, 50, 60, 70, 80, 90, 100: the market-relative scoring function
returns only these seven values, and it unconditionally overwrites every
plan's mac_value — including the provisional ladder's sub-40 rungs and the
0 of a zero-filled error record, which never survive. -/
theorem mac_values_in_bucket_set (plans : List MacPlan) (hne : plans ≠ [])
    (m : ℚ) (hm : m ∈ macValueAnalysisScores plans) :
    m = 40 ∨ m = 50 ∨ m = 60 ∨ m = 70 ∨ m = 80 ∨ m = 90 ∨ m = 100 := by
  simp only [macValueAnalysisScores, List.mem_map] at hm
  obtain ⟨v, hv, rfl⟩ := hm
  rcases market_relative_score_cases
      (plans.map fun p => (calculate_mac_value p).value_added_pmpm) v with
    h | h | h | h | h | h | h
  · exact Or.inl (by rw [h]; exact pyRound1_eq_self_of_int 40 40 (by norm_num))
  · exact Or.inr (Or.inl
      (by rw [h]; exact pyRound1_eq_self_of_int 50 50 (by norm_num)))
  · exact Or.inr (Or.inr (Or.inl
      (by rw [h]; exact pyRound1_eq_self_of_int 60 60 (by norm_num))))
  · exact Or.inr (Or.inr (Or.inr (Or.inl
      (by rw [h]; exact pyRound1_eq_self_of_int 70 70 (by norm_num)))))
  · exact Or.inr (Or.inr (Or.inr (Or.inr (Or.inl
      (by rw [h]; exact pyRound1_eq_self_of_int 80 80 (by norm_num))))))
  · exact Or.inr (Or.inr (Or.inr (Or.inr (Or.inr (Or.inl
      (by rw [h]; exact pyRound1_eq_self_of_int 90 90 (by norm_num)))))))
  · exact Or.inr (Or.inr (Or.inr (Or.inr (Or.inr (Or.inr
      (by rw [h]; exact pyRound1_eq_self_of_int 100 100 (by norm_num)))))))

/-- An all-zero plan record, used as a concrete batch member. -/
def planZero : MacPlan :=
  { part_c_premium := .num 0
    part_d_premium := .num 0
    part_b_buydown := .num 0
    estimated_benchmark := .num 0
    benchmark_0pct := .num 0
    estimated_bid := .num 0
    overall_rating := .num 0
    total_supplemental_value := .num 0 }

/-- C9 witness: the singleton batch around the all-zero plan produces the
score list `[60]`, and 60 is in the seven-value set. -/
theorem mac_values_in_bucket_set_witness :
    ([planZero] ≠ [] ∧ (60 : ℚ) ∈ macValueAnalysisScores [planZero]) ∧
      ((60 : ℚ) = 40 ∨ (60 : ℚ) = 50 ∨ (60 : ℚ) = 60 ∨ (60 : ℚ) = 70 ∨
        (60 : ℚ) = 80 ∨ (60 : ℚ) = 90 ∨ (60 : ℚ) = 100) := by
  have hscore : calculate_market_relative_score
      [(calculate_mac_value planZero).value_added_pmpm]
      (calculate_mac_value planZero).value_added_pmpm = 60 := by
    simp only [calculate_market_relative_score]
    rw [if_neg]
    intro h
    obtain ⟨h1, h2⟩ := h
    simp at h2
  have hlist : macValueAnalysisScores [planZero] =
      [pyRound1 (calculate_market_relative_score
        [(calculate_mac_value planZero).value_added_pmpm]
        (calculate_mac_value planZero).value_added_pmpm)] := rfl
  have hmem : (60 : ℚ) ∈ macValueAnalysisScores [planZero] := by
    rw [hlist, hscore, pyRound1_eq_self_of_int 60 60 (by norm_num)]
    simp
  exact ⟨⟨by simp, hmem⟩,
    mac_values_in_bucket_set [planZero] (by simp) 60 hmem⟩

/-- The database row fields involved in the two batch entry points.
Optional fields model SQL NULL. -/
structure PlanRow where
  benchmark_0pct : Option ℚ
  benchmark_5pct : Option ℚ
  part_c_premium : Option ℚ
  part_d_premium : Option ℚ
  total_supplemental_value : Option ℚ
deriving DecidableEq

/-- The `get_plans` call of the bid estimator (simple_server.py lines
274-280): benchmark from `benchmark_0pct`, premium argument is
`part_c_premium` ONLY. -/
def getPlansEstimatedBid (row : PlanRow) : Option ℚ :=
  let benchmark := row.benchmark_0pct.getD 0
  let part_c_premium := row.part_c_premium.getD 0
  let supplemental_value := row.total_supplemental_value.getD 0
  calculate_estimated_bid (some benchmark) (some part_c_premium)
    (some supplemental_value)

/-- `rebate = max(0, benchmark - estimated_bid) if benchmark and
estimated_bid else 0` in `get_plans` (simple_server.py line 281). -/
def getPlansRebate (row : PlanRow) : ℚ :=
  let benchmark := row.benchmark_0pct.getD 0
  let estimated_bid := getPlansEstimatedBid row
  if floatTruthy (some benchmark) && floatTruthy estimated_bid then
    max 0 (benchmark - estimated_bid.getD 0)
  else 0

/-- The `get_mac_value_analysis` call of the bid estimator
(simple_server.py lines 502-513): benchmark from `benchmark_5pct` (aliased
`estimated_benchmark`), premium argument is the TOTAL
`part_c_premium + part_d_premium`. -/
def macAnalysisEstimatedBid (row : PlanRow) : Option ℚ :=
  let benchmark := row.benchmark_5pct.getD 0
  let premium_c := row.part_c_premium.getD 0
  let premium_d := row.part_d_premium.getD 0
  let supplements := row.total_supplemental_value.getD 0
  let total_premium := premium_c + premium_d
  calculate_estimated_bid (some benchmark) (some total_premium)
    (some supplements)

/-- The rebate of `get_mac_value_analysis` (simple_server.py line 516). -/
def macAnalysisRebate (row : PlanRow) : ℚ :=
  let benchmark := row.benchmark_5pct.getD 0
  let estimated_bid := macAnalysisEstimatedBid row
  if floatTruthy (some benchmark) && floatTruthy estimated_bid then
    max 0 (benchmark - estimated_bid.getD 0)
  else 0

/-- C10: the two batch entry points instantiate the bid estimator's premium
argument differently (`part_c_premium` alone versus
`part_c_premium + part_d_premium`), so a record with positive benchmark
(equal in both benchmark columns) and positive Part C and Part D premiums
gets different estimated bids — and hence different rebates — from the two
endpoints. -/
theorem endpoints_disagree_on_premium :
    ∃ row : PlanRow,
      0 < row.benchmark_0pct.getD 0 ∧
      row.benchmark_5pct = row.benchmark_0pct ∧
      0 < row.part_c_premium.getD 0 ∧
      0 < row.part_d_premium.getD 0 ∧
      getPlansEstimatedBid row ≠ macAnalysisEstimatedBid row ∧
      getPlansRebate row ≠ macAnalysisRebate row := by
  refine ⟨⟨some 500, some 500, some 10, some 10, some 0⟩,
    by norm_num, rfl, by norm_num, by norm_num, ?_, ?_⟩
  · have h1 : getPlansEstimatedBid ⟨some 500, some 500, some 10, some 10, some 0⟩ =
        some 472.5 := by
      norm_num [getPlansEstimatedBid, calculate_estimated_bid, floatTruthy,
        posVal, min_def, max_def]
    have h2 : macAnalysisEstimatedBid ⟨some 500, some 500, some 10, some 10, some 0⟩ =
        some 462.5 := by
      norm_num [macAnalysisEstimatedBid, calculate_estimated_bid, floatTruthy,
        posVal, min_def, max_def]
    rw [h1, h2]
    norm_num
  · have h1 : getPlansRebate ⟨some 500, some 500, some 10, some 10, some 0⟩ =
        27.5 := by
      norm_num [getPlansRebate, getPlansEstimatedBid, calculate_estimated_bid,
        floatTruthy, posVal, min_def, max_def]
    have h2 : macAnalysisRebate ⟨some 500, some 500, some 10, some 10, some 0⟩ =
        37.5 := by
      norm_num [macAnalysisRebate, macAnalysisEstimatedBid,
        calculate_estimated_bid, floatTruthy, posVal, min_def, max_def]
    rw [h1, h2]
    norm_num
